import Mathlib

/-!
Verification development for the Sequelizer fast5 container codec
(src/core/fast5_io.c, src/core/fast5_convert.c, src/core/fast5_stats.c),
over a shallow embedding of the HDF5 container store as a tree of groups,
attributes and 1-D float datasets.

Modelling conventions:
* C strings (names, paths, attribute payloads) are byte lists (`Bytes`).
* `double`/`float` values are rationals; the HDF5 adapter is assumed to
  store and return numeric values exactly (it is an external collaborator
  per the specification, section 6).
* Datasets are 1-D arrays of samples plus a `corrupt` flag modelling an
  H5Dread failure; `H5Sget_simple_extent_dims` always reports 1 dimension
  of size `data.length` (the codec only ever creates 1-D datasets).
* Group children are kept in creation order; `H5Gget_objname_by_idx`
  enumeration is modelled as list order.  Child names inside one group are
  unique in HDF5, so reopening a child by its enumerated name is modelled
  as using the enumerated child directly.
-/

/-- C strings and HDF5 names are modelled as byte lists. -/
abbrev Bytes := List Nat

/-- Byte list of an ASCII string literal. -/
def bstr (s : String) : Bytes := s.toList.map Char.toNat

/-- Contents of a C string buffer: bytes up to the first NUL. -/
def cstr (bs : Bytes) : Bytes := bs.takeWhile (fun b => b ≠ 0)

/-- Decimal digits of a natural number, as ASCII bytes (snprintf "%u"). -/
def natDecBytes (n : Nat) : Bytes := (Nat.toDigits 10 n).map Char.toNat

/-- Decimal rendering of a signed integer, as ASCII bytes (snprintf "%d"). -/
def intDecBytes (v : Int) : Bytes :=
  if v < 0 then 45 :: natDecBytes v.natAbs else natDecBytes v.natAbs

/-- Basename of a path: everything after the last '/' (byte 47). -/
def basenameBytes (p : Bytes) : Bytes :=
  ((p.splitOn 47).getLastD p)

/-- First index at which `needle` occurs inside the tail of the haystack
(the `strstr` search). -/
def strstrIdxAux (needle : Bytes) : Bytes → Nat → Option Nat
  | [], i => if needle.isPrefixOf ([] : Bytes) then some i else none
  | b :: t, i =>
    if needle.isPrefixOf (b :: t) then some i else strstrIdxAux needle t (i + 1)

/-- Index of the first occurrence of the needle (strstr), if any. -/
def strstrIdx (hay needle : Bytes) : Option Nat := strstrIdxAux needle hay 0

/-- Does `needle` occur in `hay` (a non-NULL `strstr` result)? -/
def containsSub (hay needle : Bytes) : Bool := (strstrIdx hay needle).isSome

/-- HDF5 path components: split an absolute path on '/' and drop empties. -/
def splitPath (p : Bytes) : List Bytes := (p.splitOn 47).filter (fun c => c ≠ [])

/-- Scalar attribute values of the typed HDF5 store adapter. -/
inductive AttrVal
  | f64A (v : ℚ)
  | u32A (v : Nat)
  | i32A (v : Int)
  | u64A (v : Nat)
  | strA (bs : Bytes)
deriving DecidableEq, Repr

/-- An HDF5 object: a group with attributes and named children, or a 1-D
float dataset (`corrupt = true` makes `H5Dread` on it fail). -/
inductive H5Obj
  | group (attrs : List (Bytes × AttrVal)) (children : List (Bytes × H5Obj))
  | dset (data : List ℚ) (corrupt : Bool)

/-- Look up an attribute by name (H5Aopen / H5Aexists). -/
def lookupAttr (attrs : List (Bytes × AttrVal)) (nm : Bytes) : Option AttrVal :=
  match attrs.find? (fun a => a.1 = nm) with
  | some a => some a.2
  | none => none

/-- Look up an immediate child of a group child list by name. -/
def findChild (children : List (Bytes × H5Obj)) (nm : Bytes) : Option H5Obj :=
  match children.find? (fun c => c.1 = nm) with
  | some c => some c.2
  | none => none

/-- Follow a component path from an object (children exist only under
groups). -/
def lookupPath : H5Obj → List Bytes → Option H5Obj
  | o, [] => some o
  | H5Obj.group _ ch, c :: rest =>
    match findChild ch c with
    | some o => lookupPath o rest
    | none => none
  | H5Obj.dset _ _, _ :: _ => none

/-- H5Gopen2 by absolute path: returns the group's attributes and
children, failing on a missing path or a non-group target. -/
def openGroupAbs (root : H5Obj) (p : Bytes) :
    Option (List (Bytes × AttrVal) × List (Bytes × H5Obj)) :=
  match lookupPath root (splitPath p) with
  | some (H5Obj.group a ch) => some (a, ch)
  | _ => none

/-- read_string_attribute (fast5_io.c:281): reads the attribute with its
own type and NUL-terminates; modelled for string-typed attributes (reading
a numeric attribute through this path yields raw bytes, below the typed
adapter abstraction, and is modelled as failure). -/
def readStringAttr (attrs : List (Bytes × AttrVal)) (nm : Bytes) : Option Bytes :=
  match lookupAttr attrs nm with
  | some (AttrVal.strA bs) => some (cstr bs)
  | _ => none

/-- read_uint32_attribute (fast5_io.c:308): H5Aread as native uint32. -/
def readU32Attr (attrs : List (Bytes × AttrVal)) (nm : Bytes) : Option Nat :=
  match lookupAttr attrs nm with
  | some (AttrVal.u32A v) => some v
  | _ => none

/-- read_double_attribute (fast5_io.c:318): H5Aread as native double;
HDF5 converts numeric classes, string attributes fail. -/
def readDoubleAttr (attrs : List (Bytes × AttrVal)) (nm : Bytes) : Option ℚ :=
  match lookupAttr attrs nm with
  | some (AttrVal.f64A v) => some v
  | some (AttrVal.u32A v) => some (v : ℚ)
  | some (AttrVal.u64A v) => some (v : ℚ)
  | some (AttrVal.i32A v) => some (v : ℚ)
  | _ => none

/-- fast5_metadata_t (fast5_utils.h), restricted to the fields the claims
touch; `zero` is the calloc state. -/
structure Fast5Meta where
  read_id : Option Bytes
  signal_length : Nat
  sample_rate : ℚ
  duration : Nat
  read_number : Nat
  is_multi_read : Bool
  file_path : Bytes
  channel_number : Option Bytes
  offset : ℚ
  range : ℚ
  digitisation : ℚ
  calibration_available : Bool
  start_time : Nat
  run_id : Option Bytes
deriving DecidableEq, Repr

/-- The all-zero record produced by calloc. -/
def Fast5Meta.zero : Fast5Meta :=
  { read_id := none, signal_length := 0, sample_rate := 0, duration := 0,
    read_number := 0, is_multi_read := false, file_path := [],
    channel_number := none, offset := 0, range := 0, digitisation := 0,
    calibration_available := false, start_time := 0, run_id := none }

instance : Inhabited Fast5Meta := ⟨Fast5Meta.zero⟩

example : cstr (bstr "reads" ++ [0, 7]) = bstr "reads" := by decide
example : strstrIdx (bstr "reads_ch999.fast5") (bstr "ch") = some 6 := by decide
example : splitPath (bstr "/Raw/Reads") = [bstr "Raw", bstr "Reads"] := by decide
example : basenameBytes (bstr "a/b/c.fast5") = bstr "c.fast5" := by decide

/-!
Channel & Calibration Decoder enrichment.

`locateChannelGroup` embeds the dataset-path derivation duplicated at
fast5_convert.c:56-73 and fast5_io.c:377-394: from the open signal
dataset's H5Iget_name result, derive the sibling channel_id group.
-/

/-- Derive and open the channel_id group from a signal dataset path. -/
def locateChannelGroup (root : H5Obj) (dsPath : Bytes) :
    Option (List (Bytes × AttrVal) × List (Bytes × H5Obj)) :=
  if containsSub dsPath (bstr "/Raw/Reads/") then
    openGroupAbs root (bstr "/UniqueGlobalKey/channel_id")
  else if containsSub dsPath (bstr "/Raw/Signal") then
    match strstrIdx dsPath (bstr "/read_") with
    | some i =>
      match strstrIdx (dsPath.drop i) (bstr "/Raw") with
      | some j => openGroupAbs root (dsPath.take (i + j) ++ bstr "/channel_id")
      | none => none
    | none => none
  else none

/-- extract_calibration_parameters (fast5_io.c:363-431): zero the four
calibration fields, locate the channel_id group, read the three double
coefficients, and mark `calibration_available` only if all three reads
succeeded.  A coefficient whose read succeeded keeps its value even when
another one fails. -/
def extract_calibration_parameters (root : H5Obj) (dsPath : Bytes)
    (m : Fast5Meta) : Fast5Meta :=
  let m0 := { m with offset := 0, range := 0, digitisation := 0,
                     calibration_available := false }
  match locateChannelGroup root dsPath with
  | none => m0
  | some (attrs, _) =>
    let offR := readDoubleAttr attrs (bstr "offset")
    let rngR := readDoubleAttr attrs (bstr "range")
    let digR := readDoubleAttr attrs (bstr "digitisation")
    { m0 with offset := offR.getD m0.offset,
              range := rngR.getD m0.range,
              digitisation := digR.getD m0.digitisation,
              calibration_available := offR.isSome && rngR.isSome && digR.isSome }

/-- The 16-bit little-endian view of the first bytes (LE host read). -/
def u16le (bs : Bytes) : Nat := bs.getD 0 0 + 256 * bs.getD 1 0

/-- The 16-bit big-endian view (bswap16 of the host read). -/
def u16be (bs : Bytes) : Nat := bs.getD 1 0 + 256 * bs.getD 0 0

/-- The 32-bit little-endian view of the first bytes (LE host read). -/
def u32le (bs : Bytes) : Nat :=
  bs.getD 0 0 + 256 * bs.getD 1 0 + 65536 * bs.getD 2 0 + 16777216 * bs.getD 3 0

/-- The 32-bit big-endian view (bswap32 of the host read). -/
def u32be (bs : Bytes) : Nat :=
  bs.getD 3 0 + 256 * bs.getD 2 0 + 65536 * bs.getD 1 0 + 16777216 * bs.getD 0 0

/-- Packed-binary channel decoding chain (fast5_convert.c:97-113): pick
the first of the four byte interpretations lying in (0, 1000). -/
def packedChannelDecode (bs : Bytes) : Option Nat :=
  let n :=
    if 0 < u16le bs ∧ u16le bs < 1000 then u16le bs
    else if 0 < u16be bs ∧ u16be bs < 1000 then u16be bs
    else if 0 < u32le bs ∧ u32le bs < 1000 then u32le bs
    else if 0 < u32be bs ∧ u32be bs < 1000 then u32be bs
    else 0
  if 0 < n then some n else none

/-- Printable-text check of fast5_convert.c:126-132: every byte before the
first NUL is printable ASCII. -/
def isTextBytes (bs : Bytes) : Bool :=
  (bs.takeWhile (fun b => b ≠ 0)).all (fun b => 32 ≤ b ∧ b ≤ 126)

/-- extract_channel_number (fast5_convert.c:43-149): clear the field,
locate the channel_id group, and decode its channel_number attribute by
type class: native integer (printed with %d), 8-byte string (packed
binary chain), or short printable string (verbatim). -/
def extract_channel_number (root : H5Obj) (dsPath : Bytes)
    (m : Fast5Meta) : Fast5Meta :=
  let m0 := { m with channel_number := none }
  match locateChannelGroup root dsPath with
  | none => m0
  | some (attrs, _) =>
    match lookupAttr attrs (bstr "channel_number") with
    | none => m0
    | some (AttrVal.i32A v) => { m0 with channel_number := some (intDecBytes v) }
    | some (AttrVal.u32A v) => { m0 with channel_number := some (intDecBytes v) }
    | some (AttrVal.u64A v) => { m0 with channel_number := some (intDecBytes v) }
    | some (AttrVal.f64A _) => m0
    | some (AttrVal.strA bs) =>
      if bs.length = 8 then
        match packedChannelDecode bs with
        | some n => { m0 with channel_number := some (natDecBytes n) }
        | none => m0
      else if 0 < bs.length ∧ bs.length < 32 then
        if isTextBytes bs then { m0 with channel_number := some (cstr bs) }
        else m0
      else m0

/-- sscanf "%d": skip whitespace, optional sign, then a non-empty digit
run; returns the parsed value. -/
def scanDecInt (bs : Bytes) : Option Int :=
  let t := bs.dropWhile (fun b => b = 32 ∨ b = 9 ∨ b = 10 ∨ b = 11 ∨ b = 12 ∨ b = 13)
  let (neg, t2) :=
    match t with
    | 45 :: r => (true, r)
    | 43 :: r => (false, r)
    | r => (false, r)
  let digits := t2.takeWhile (fun b => 48 ≤ b ∧ b ≤ 57)
  if digits = [] then none
  else
    let v : Nat := digits.foldl (fun acc d => acc * 10 + (d - 48)) 0
    some (if neg then -(v : Int) else (v : Int))

/-- Channel number parsed from a filename basename: the first "ch"
substring followed by an sscanf "%d" integer in (0, 10000)
(fast5_convert.c:26-39). -/
def channelFromFilename (filename : Bytes) : Option Bytes :=
  let basename := basenameBytes filename
  match strstrIdx basename (bstr "ch") with
  | none => none
  | some i =>
    match scanDecInt ((basename.drop i).drop 2) with
    | some v => if 0 < v ∧ v < 10000 then some (intDecBytes v) else none
    | none => none

/-- try_filename_channel_extraction (fast5_convert.c:23-40): filename
fallback, a no-op when a channel number is already present. -/
def try_filename_channel_extraction (filename : Bytes) (m : Fast5Meta) : Fast5Meta :=
  match m.channel_number with
  | some _ => m
  | none =>
    match channelFromFilename filename with
    | some c => { m with channel_number := some c }
    | none => m

/-- extract_channel_and_calibration_combined (fast5_convert.c:152-158). -/
def extract_channel_and_calibration_combined (root : H5Obj) (dsPath : Bytes)
    (m : Fast5Meta) : Fast5Meta :=
  extract_calibration_parameters root dsPath (extract_channel_number root dsPath m)

/-- Channel decoding as composed in extract_raw_signals
(fast5_convert.c:255-259): attribute-based decoding first, the filename
fallback only for records still lacking a channel number. -/
def channel_with_fallback (root : H5Obj) (dsPath : Bytes) (filename : Bytes)
    (m : Fast5Meta) : Fast5Meta :=
  let m1 := extract_channel_number root dsPath m
  match m1.channel_number with
  | some _ => m1
  | none => try_filename_channel_extraction filename m1

example : channelFromFilename (bstr "reads_ch999.fast5") = some (bstr "999") := by decide
example : channelFromFilename (bstr "reads.fast5") = none := by decide
example : packedChannelDecode [231, 3, 1, 0, 0, 0, 0, 0] = some 999 := by decide
example : packedChannelDecode [0, 0, 0, 0, 1, 0, 0, 0] = none := by decide

/-!
Metadata Reader with enrichment plugins (fast5_io.c:438-665).
-/

/-- metadata_enhancer_t: receives the file, the open signal dataset's
H5Iget_name path, and the record being built. -/
abbrev MetaEnhancer := H5Obj → Bytes → Fast5Meta → Fast5Meta

/-- Per-read body of read_single_read_metadata_with_enhancer
(fast5_io.c:477-511): open /Raw/Reads/<name>, read the fixed attributes,
take signal_length from the Signal dataset extent and invoke the enhancer
while it is open. -/
def singleReadRecord (root : H5Obj) (filename : Bytes) (enh : Option MetaEnhancer)
    (nm : Bytes) (o : H5Obj) : Option Fast5Meta :=
  match o with
  | H5Obj.dset _ _ => none
  | H5Obj.group gattrs gch =>
    let m0 := { Fast5Meta.zero with file_path := filename, is_multi_read := false }
    let m1 := { m0 with
      read_id := readStringAttr gattrs (bstr "read_id"),
      duration := (readU32Attr gattrs (bstr "duration")).getD m0.duration,
      read_number := (readU32Attr gattrs (bstr "read_number")).getD m0.read_number }
    match findChild gch (bstr "Signal") with
    | some (H5Obj.dset d _) =>
      let m2 := { m1 with signal_length := d.length }
      let dsPath := bstr "/Raw/Reads/" ++ nm ++ bstr "/Signal"
      some (match enh with | some e => e root dsPath m2 | none => m2)
    | _ => some m1

/-- read_single_read_metadata_with_enhancer (fast5_io.c:438-527):
requires /Raw/Reads with at least one child, builds one record per
openable read group, then back-fills the per-file sampling_rate from
/UniqueGlobalKey/channel_id onto every record. -/
def read_single_read_metadata_with_enhancer (root : H5Obj) (filename : Bytes)
    (enh : Option MetaEnhancer) : Option (List Fast5Meta) :=
  match openGroupAbs root (bstr "/Raw/Reads") with
  | none => none
  | some (_, children) =>
    if children.length = 0 then none
    else
      let ms := children.filterMap (fun c => singleReadRecord root filename enh c.1 c.2)
      let ms2 :=
        match openGroupAbs root (bstr "/UniqueGlobalKey/channel_id") with
        | some (cattrs, _) =>
          match readDoubleAttr cattrs (bstr "sampling_rate") with
          | some v => ms.map (fun m => { m with sample_rate := v })
          | none => ms
        | none => ms
      some ms2

/-- Per-read body of read_multi_read_metadata_with_enhancer
(fast5_io.c:554-602): for a root child named read_*, open its Raw
subgroup, read attributes there, take the Signal extent with the enhancer
invoked while open, and read sampling_rate from the read's channel_id. -/
def multiReadRecord (root : H5Obj) (filename : Bytes) (enh : Option MetaEnhancer)
    (nm : Bytes) (o : H5Obj) : Option Fast5Meta :=
  if (bstr "read_").isPrefixOf nm then
    match o with
    | H5Obj.group gch0 gch =>
      match findChild gch (bstr "Raw") with
      | some (H5Obj.group rattrs rch) =>
        let m0 := { Fast5Meta.zero with file_path := filename, is_multi_read := true }
        let m1 := { m0 with
          read_id := readStringAttr rattrs (bstr "read_id"),
          duration := (readU32Attr rattrs (bstr "duration")).getD m0.duration,
          read_number := (readU32Attr rattrs (bstr "read_number")).getD m0.read_number }
        let m2 :=
          match findChild rch (bstr "Signal") with
          | some (H5Obj.dset d _) =>
            let dsPath := bstr "/" ++ nm ++ bstr "/Raw/Signal"
            let mm := { m1 with signal_length := d.length }
            match enh with | some e => e root dsPath mm | none => mm
          | _ => m1
        let m3 :=
          match findChild gch (bstr "channel_id") with
          | some (H5Obj.group cattrs _) =>
            match readDoubleAttr cattrs (bstr "sampling_rate") with
            | some v => { m2 with sample_rate := v }
            | none => m2
          | _ => m2
        let _ := gch0
        some m3
      | _ => none
    | H5Obj.dset _ _ => none
  else none

/-- read_multi_read_metadata_with_enhancer (fast5_io.c:530-605): fails
when no root-level read_* name exists, otherwise one record per fully
openable read_* group. -/
def read_multi_read_metadata_with_enhancer (root : H5Obj) (filename : Bytes)
    (enh : Option MetaEnhancer) : Option (List Fast5Meta) :=
  match root with
  | H5Obj.dset _ _ => none
  | H5Obj.group _ ch =>
    let readCount := (ch.filter (fun c => (bstr "read_").isPrefixOf c.1)).length
    if readCount = 0 then none
    else some (ch.filterMap (fun c => multiReadRecord root filename enh c.1 c.2))

/-- Dialect detection shared by the metadata reader (fast5_io.c:632-654)
and the signal reader (fast5_io.c:850-872): a present file_type attribute
means multi-read; otherwise any of the first 5 root child names with the
read_ prefix means multi-read; otherwise the single-read path is used. -/
def detect_multi_read (root : H5Obj) : Bool :=
  match root with
  | H5Obj.dset _ _ => false
  | H5Obj.group attrs ch =>
    if (lookupAttr attrs (bstr "file_type")).isSome then true
    else ((ch.take 5).map Prod.fst).any (fun nm => (bstr "read_").isPrefixOf nm)

/-- read_fast5_metadata_with_enhancer (fast5_io.c:608-665). -/
def read_fast5_metadata_with_enhancer (root : H5Obj) (filename : Bytes)
    (enh : Option MetaEnhancer) : Option (List Fast5Meta) :=
  if detect_multi_read root then
    read_multi_read_metadata_with_enhancer root filename enh
  else
    read_single_read_metadata_with_enhancer root filename enh

/-!
Signal Reader (fast5_io.c:671-882).  The loops thread the output
signal-length variable exactly as the C does: it is set to the dataset
extent before the copy and reset to 0 when the copy fails.
-/

/-- Does a read group match the requested read id (fast5_io.c:712-720)?
A missing or unreadable read_id attribute is a mismatch. -/
def matchRead (rid : Option Bytes) (attrs : List (Bytes × AttrVal)) : Bool :=
  match rid with
  | none => true
  | some r =>
    match readStringAttr attrs (bstr "read_id") with
    | some s => s = r
    | none => false

/-- Search loop of read_single_read_signal (fast5_io.c:701-748) over the
children of /Raw/Reads, threading the signal-length output variable. -/
def srsLoop (rid : Option Bytes) :
    List (Bytes × H5Obj) → Nat → Option (List ℚ) × Nat
  | [], len => (none, len)
  | (_, H5Obj.dset _ _) :: rest, len => srsLoop rid rest len
  | (_, H5Obj.group gattrs gch) :: rest, len =>
    if matchRead rid gattrs then
      match findChild gch (bstr "Signal") with
      | some (H5Obj.dset d c) =>
        if 0 < d.length then
          if c then srsLoop rid rest 0 else (some d, d.length)
        else srsLoop rid rest len
      | _ => srsLoop rid rest len
    else srsLoop rid rest len

/-- read_single_read_signal (fast5_io.c:671-752). -/
def read_single_read_signal (root : H5Obj) (rid : Option Bytes) :
    Option (List ℚ) × Nat :=
  match openGroupAbs root (bstr "/Raw/Reads") with
  | none => (none, 0)
  | some (_, ch) => srsLoop rid ch 0

/-- Search loop of read_multi_read_signal (fast5_io.c:765-820) over the
root children with the read_ name prefix. -/
def mrsLoop (rid : Option Bytes) :
    List (Bytes × H5Obj) → Nat → Option (List ℚ) × Nat
  | [], len => (none, len)
  | (nm, o) :: rest, len =>
    if (bstr "read_").isPrefixOf nm then
      match o with
      | H5Obj.group _ gch =>
        match findChild gch (bstr "Raw") with
        | some (H5Obj.group rattrs rch) =>
          if matchRead rid rattrs then
            match findChild rch (bstr "Signal") with
            | some (H5Obj.dset d c) =>
              if 0 < d.length then
                if c then mrsLoop rid rest 0 else (some d, d.length)
              else mrsLoop rid rest len
            | _ => mrsLoop rid rest len
          else mrsLoop rid rest len
        | _ => mrsLoop rid rest len
      | H5Obj.dset _ _ => mrsLoop rid rest len
    else mrsLoop rid rest len

/-- read_multi_read_signal (fast5_io.c:755-823). -/
def read_multi_read_signal (root : H5Obj) (rid : Option Bytes) :
    Option (List ℚ) × Nat :=
  match root with
  | H5Obj.dset _ _ => (none, 0)
  | H5Obj.group _ ch => mrsLoop rid ch 0

/-- read_fast5_signal (fast5_io.c:826-882): dialect detection, then the
dialect-specific search. -/
def read_fast5_signal (root : H5Obj) (rid : Option Bytes) :
    Option (List ℚ) × Nat :=
  if detect_multi_read root then read_multi_read_signal root rid
  else read_single_read_signal root rid

/-!
Container Writer (fast5_io.c:896-1389).  The writers build the tree the
HDF5 calls create, with attributes and children listed in creation order.
-/

/-- H5Awrite through a fixed-size string type copies exactly `size`
bytes; the writer's buffers are NUL-terminated and modelled as padded
with NUL up to the declared size. -/
def padTo (bs : Bytes) (size : Nat) : Bytes :=
  (bs ++ List.replicate (size - bs.length) 0).take size

/-- The synthetic channel_id group written for every container
(fast5_io.c:1023-1054 and 1252-1283). -/
def channelIdGroupW (khz : ℚ) : H5Obj :=
  H5Obj.group
    [(bstr "channel_number", AttrVal.strA [49, 0]),
     (bstr "digitisation", AttrVal.f64A 8192),
     (bstr "offset", AttrVal.f64A 0),
     (bstr "range", AttrVal.f64A (6069 / 4)),
     (bstr "sampling_rate", AttrVal.f64A (khz * 1000))] []

/-- The context_tags group with the output file's basename
(fast5_io.c:1069-1082 and 1286-1294). -/
def contextTagsGroupW (filename : Bytes) : H5Obj :=
  H5Obj.group [(bstr "filename", AttrVal.strA (basenameBytes filename ++ [0]))] []

/-- The tracking_id group (fast5_io.c:1084-1135 and 1297-1332). -/
def trackingIdGroupW : H5Obj :=
  H5Obj.group
    [(bstr "exp_start_time", AttrVal.strA (bstr "2025-01-01T00:00:00" ++ [0])),
     (bstr "run_id", AttrVal.strA (padTo (bstr "sequelizer_synthetic_run_001" ++ [0]) 40)),
     (bstr "flow_cell_id", AttrVal.strA (bstr "FAKE_FC_001")),
     (bstr "device_id", AttrVal.strA (bstr "SM001"))] []

/-- One /Raw/Reads/Read_<idx> group of the single-read writer
(fast5_io.c:950-1021). -/
def writeReadGroupSingle (idx : Nat) (data : List ℚ) (name : Bytes) : Bytes × H5Obj :=
  (bstr "Read_" ++ natDecBytes idx,
   H5Obj.group
     [(bstr "duration", AttrVal.u32A (data.length % 4294967296)),
      (bstr "read_id", AttrVal.strA (name ++ [0])),
      (bstr "read_number", AttrVal.u32A idx),
      (bstr "start_mux", AttrVal.i32A 2),
      (bstr "start_time", AttrVal.u64A 0)]
     [(bstr "Signal", H5Obj.dset data false)])

/-- seq_write_fast5_single (fast5_io.c:896-1139): the container tree it
creates.  `reads` pairs each raw-signal tensor (none for a NULL entry,
which is skipped) with its read name. -/
def seq_write_fast5_single (filename : Bytes)
    (reads : List (Option (List ℚ) × Bytes)) (khz : ℚ) : H5Obj :=
  let readGroups := reads.enum.filterMap (fun p =>
    match p.2.1 with
    | some d => some (writeReadGroupSingle p.1 d p.2.2)
    | none => none)
  H5Obj.group
    [(bstr "file_version", AttrVal.f64A 1),
     (bstr "file_type", AttrVal.strA (bstr "single-read"))]
    [(bstr "Raw", H5Obj.group [] [(bstr "Reads", H5Obj.group [] readGroups)]),
     (bstr "UniqueGlobalKey", H5Obj.group []
        [(bstr "channel_id", channelIdGroupW khz),
         (bstr "context_tags", contextTagsGroupW filename),
         (bstr "tracking_id", trackingIdGroupW)])]

/-- One root-level read_<name> group of the multi-read writer
(fast5_io.c:1178-1385). -/
def writeReadGroupMulti (filename : Bytes) (idx : Nat) (data : List ℚ)
    (name : Bytes) (khz : ℚ) : Bytes × H5Obj :=
  (bstr "read_" ++ name,
   H5Obj.group
     [(bstr "run_id", AttrVal.strA (padTo (bstr "sequelizer_synthetic_run_001" ++ [0]) 40))]
     [(bstr "Raw", H5Obj.group
         [(bstr "duration", AttrVal.u32A (data.length % 4294967296)),
          (bstr "read_id", AttrVal.strA (name ++ [0])),
          (bstr "read_number", AttrVal.u32A idx),
          (bstr "start_mux", AttrVal.i32A 2),
          (bstr "start_time", AttrVal.u64A 0)]
         [(bstr "Signal", H5Obj.dset data false)]),
      (bstr "channel_id", channelIdGroupW khz),
      (bstr "context_tags", contextTagsGroupW filename),
      (bstr "tracking_id", trackingIdGroupW)])

/-- seq_write_fast5_multi (fast5_io.c:1142-1389). -/
def seq_write_fast5_multi (filename : Bytes)
    (reads : List (Option (List ℚ) × Bytes)) (khz : ℚ) : H5Obj :=
  H5Obj.group
    [(bstr "file_version", AttrVal.f64A 1),
     (bstr "file_type", AttrVal.strA (bstr "multi-read"))]
    (reads.enum.filterMap (fun p =>
      match p.2.1 with
      | some d => some (writeReadGroupMulti filename p.1 d p.2.2 khz)
      | none => none))

/-!
Dataset Aggregator (fast5_stats.c:13-135).
-/

/-- UINT32_MAX, the "unbounded high" min-signal-length sentinel. -/
def UINT32_MAX : Nat := 4294967295

/-- fast5_dataset_statistics_t restricted to the signal statistics the
claims touch. -/
structure SignalStats where
  successful_files : Nat
  total_reads : Nat
  total_file_size_mb : ℚ
  total_samples : Nat
  min_signal_length : Nat
  max_signal_length : Nat
  total_duration_seconds : ℚ
deriving DecidableEq, Repr

/-- One (metadata array, count, file) input of the aggregator; the count
is the array length and the file size stands for get_file_size_mb. -/
structure FileEntry where
  meta : Option (List Fast5Meta)
  sizeMb : ℚ
deriving DecidableEq, Repr

/-- Per-read fold body of calc_signal_stats (fast5_stats.c:66-84): add
the sample count, update the min/max signal-length range only for
non-empty signals, and accumulate duration / sample_rate only for a
positive sample rate.  The C statements touch pairwise disjoint fields,
so the sequential updates are written as one record update. -/
def foldReadStats (s : SignalStats) (m : Fast5Meta) : SignalStats :=
  { s with
    total_samples := s.total_samples + m.signal_length,
    min_signal_length :=
      if 0 < m.signal_length ∧ m.signal_length < s.min_signal_length then
        m.signal_length else s.min_signal_length,
    max_signal_length :=
      if 0 < m.signal_length ∧ s.max_signal_length < m.signal_length then
        m.signal_length else s.max_signal_length,
    total_duration_seconds :=
      if 0 < m.sample_rate then
        s.total_duration_seconds + (m.duration : ℚ) / m.sample_rate
      else s.total_duration_seconds }

/-- A file counts as successfully processed when its metadata array is
non-null and its count positive (fast5_stats.c:60). -/
def goodEntry (e : FileEntry) : Bool :=
  match e.meta with
  | some ms => decide (0 < ms.length)
  | none => false

/-- Per-file fold body of calc_signal_stats (fast5_stats.c:59-86). -/
def foldFileStats (s : SignalStats) (e : FileEntry) : SignalStats :=
  match e.meta with
  | some ms =>
    if 0 < ms.length then
      let s1 := { s with successful_files := s.successful_files + 1,
                         total_reads := s.total_reads + ms.length,
                         total_file_size_mb := s.total_file_size_mb + e.sizeMb }
      ms.foldl foldReadStats s1
    else s
  | none => s

/-- The counter initialisation of calc_signal_stats (fast5_stats.c:50-56),
with min_signal_length at the unbounded-high sentinel. -/
def statsInit : SignalStats :=
  { successful_files := 0, total_reads := 0, total_file_size_mb := 0,
    total_samples := 0, min_signal_length := UINT32_MAX,
    max_signal_length := 0, total_duration_seconds := 0 }

/-- calc_signal_stats (fast5_stats.c:45-87). -/
def calc_signal_stats (batch : List FileEntry) : SignalStats :=
  batch.foldl foldFileStats statsInit

/-- calc_fast5_dataset_stats_with_enhancer (fast5_stats.c:13-42): signal
statistics, an optional enhancer pass, then the zero-read fix-up of
min_signal_length.  The enhancer is modelled as an arbitrary update of
the statistics record. -/
def calc_fast5_dataset_stats_with_enhancer (batch : List FileEntry)
    (enh : Option (SignalStats → SignalStats)) : SignalStats :=
  let s0 := calc_signal_stats batch
  let s1 := match enh with | some e => e s0 | none => s0
  if s1.total_reads = 0 then { s1 with min_signal_length := 0 } else s1

/-- fast5_analysis_summary_t restricted to the basic statistics filled in
by calc_analysis_summary_with_enhancer (fast5_stats.c:95-107); the
enhancer branch only touches advanced fields outside this model. -/
structure AnalysisSummary where
  total_files : Nat
  total_file_size_mb : ℚ
  successful_files : Nat
  failed_files : Int
  total_reads : Nat
  total_samples : Nat
  avg_signal_length : ℚ
  min_signal_length : Nat
  max_signal_length : Nat
  total_duration_seconds : ℚ
  avg_bits_per_sample : ℚ
  processing_time_ms : ℚ
  avg_duration_seconds : ℚ
deriving DecidableEq, Repr

/-- calc_analysis_summary_with_enhancer (fast5_stats.c:90-135), basic
fields. -/
def calc_analysis_summary_with_enhancer (stats : SignalStats)
    (file_count : Nat) (pt : ℚ) : AnalysisSummary :=
  { total_files := file_count,
    total_file_size_mb := stats.total_file_size_mb,
    successful_files := stats.successful_files,
    failed_files := (file_count : Int) - (stats.successful_files : Int),
    total_reads := stats.total_reads,
    total_samples := stats.total_samples,
    avg_signal_length :=
      if 0 < stats.total_reads then (stats.total_samples : ℚ) / (stats.total_reads : ℚ)
      else 0,
    min_signal_length := stats.min_signal_length,
    max_signal_length := stats.max_signal_length,
    total_duration_seconds := stats.total_duration_seconds,
    avg_bits_per_sample :=
      if 0 < stats.total_samples then
        stats.total_file_size_mb * 1000 * 1000 * 8 / (stats.total_samples : ℚ)
      else 0,
    processing_time_ms := pt,
    avg_duration_seconds :=
      if 0 < stats.total_reads then stats.total_duration_seconds / (stats.total_reads : ℚ)
      else 0 }

/-!
Summary row pA conversion (fast5_stats.c:195-239) and the conversion
contract the codec itself documents (fast5_convert.c:179).
-/

/-- median_pa of write_summary_row (fast5_stats.c:206-215): with
calibration available and positive digitisation the raw median is
converted with the offset SUBTRACTED. -/
def summary_row_median_pa (m : Fast5Meta) (median_raw : ℚ) : ℚ :=
  if m.calibration_available ∧ 0 < m.digitisation then
    (median_raw - m.offset) * m.range / m.digitisation
  else median_raw

/-- The pA conversion contract as printed into every signal dump header
by write_signal_to_file (fast5_convert.c:179):
signal_pA = (raw_signal + offset) * range / digitisation. -/
def signal_pA_contract (raw off rng dig : ℚ) : ℚ := (raw + off) * rng / dig

/-!
Raw extraction read selection (fast5_convert.c:261-304).
-/

/-- The is_multi_read flag of the first metadata record
(fast5_convert.c:262; the caller guarantees a non-empty array). -/
def headIsMulti (mds : List Fast5Meta) : Bool :=
  match mds with
  | [] => false
  | m :: _ => m.is_multi_read

/-- Number of reads extract_raw_signals processes for one file
(fast5_convert.c:262-271): multi-read files are limited to the first 3
reads unless the all-reads flag is set. -/
def reads_to_process (mds : List Fast5Meta) (all_reads : Bool) : Nat :=
  if headIsMulti mds && !all_reads && decide (3 < mds.length) then 3
  else mds.length

/-- Loop body of the signal-extraction loop (fast5_convert.c:294-304):
the read is written only when a non-empty signal was extracted. -/
def writeOneRead (root : H5Obj) (m : Fast5Meta) : Option (Fast5Meta × List ℚ) :=
  match read_fast5_signal root m.read_id with
  | (some s, n) => if n = 0 then none else some (m, s)
  | (none, _) => none

/-- The (read, signal) pairs extract_raw_signals writes for one file. -/
def extract_raw_outputs (root : H5Obj) (mds : List Fast5Meta)
    (all_reads : Bool) : List (Fast5Meta × List ℚ) :=
  (mds.take (reads_to_process mds all_reads)).filterMap (writeOneRead root)

/-!
Claim-side fixtures and comparison definitions.
-/

/-- Modelled from claim C4's wording only (for comparison with the code):
the dialect read from the VALUE of the root file_type discriminator
attribute; `some true` is multi-read, `some false` single-read. -/
def claim_dialect_from_attr (root : H5Obj) : Option Bool :=
  match root with
  | H5Obj.group attrs _ =>
    match lookupAttr attrs (bstr "file_type") with
    | some (AttrVal.strA bs) =>
      if cstr bs = bstr "multi-read" then some true
      else if cstr bs = bstr "single-read" then some false
      else none
    | _ => none
  | H5Obj.dset _ _ => none

/-- A multi-read read_<id> group fixture with one 2-sample read. -/
def fixtureReadGroup : Bytes × H5Obj :=
  (bstr "read_abc",
   H5Obj.group []
     [(bstr "Raw", H5Obj.group
         [(bstr "read_id", AttrVal.strA (bstr "abc" ++ [0])),
          (bstr "duration", AttrVal.u32A 2)]
         [(bstr "Signal", H5Obj.dset [1, 2] false)])])

/-- C4 fixture (a): discriminator attribute present, multi-read layout. -/
def fixtureMultiAttr : H5Obj :=
  H5Obj.group [(bstr "file_type", AttrVal.strA (bstr "multi-read"))]
    [fixtureReadGroup]

/-- C4 fixture (b): no discriminator, root children use the read_ prefix. -/
def fixtureMultiPrefix : H5Obj := H5Obj.group [] [fixtureReadGroup]

/-- C4 fixture (c): no discriminator, single-read fixed path /Raw/Reads. -/
def fixtureSingleRead : H5Obj :=
  H5Obj.group []
    [(bstr "Raw", H5Obj.group []
       [(bstr "Reads", H5Obj.group []
          [(bstr "Read_0", H5Obj.group
             [(bstr "read_id", AttrVal.strA (bstr "r0" ++ [0])),
              (bstr "duration", AttrVal.u32A 2)]
             [(bstr "Signal", H5Obj.dset [1, 2] false)])])])]

/-- A file whose discriminator attribute declares single-read while the
single-read layout is present. -/
def fixtureDialectMismatch : H5Obj :=
  H5Obj.group [(bstr "file_type", AttrVal.strA (bstr "single-read"))]
    [(bstr "Raw", H5Obj.group []
       [(bstr "Reads", H5Obj.group []
          [(bstr "Read_0", H5Obj.group
             [(bstr "read_id", AttrVal.strA (bstr "r0" ++ [0]))]
             [(bstr "Signal", H5Obj.dset [1, 2] false)])])])]

/-- A single-read layout whose channel_id group carries offset and
digitisation but no range attribute. -/
def fixtureCalibPartial : H5Obj :=
  H5Obj.group []
    [(bstr "UniqueGlobalKey", H5Obj.group []
       [(bstr "channel_id", H5Obj.group
          [(bstr "offset", AttrVal.f64A 5),
           (bstr "digitisation", AttrVal.f64A 3)] [])])]

/-- The container produced by the single-read writer for one read named
r0 with samples [1, 2, 3] at 4 kHz. -/
def c1File : H5Obj :=
  seq_write_fast5_single (bstr "out.fast5") [(some [1, 2, 3], bstr "r0")] 4

/-- C1: Round-trip fails for the single-read writer.
seq_write_fast5_single writes a file_type attribute valued "single-read"
(fast5_io.c:917-928), but read_fast5_metadata_with_enhancer and
read_fast5_signal classify any file with a file_type attribute as
multi-read (fast5_io.c:636-638, 854-856); the multi-read readers then
find no root read_ groups and return nothing, even though the written
read is reachable through the single-read fixed path. -/
theorem c1_single_write_roundtrip_fails :
    read_fast5_metadata_with_enhancer c1File (bstr "out.fast5") none = none
    ∧ read_fast5_signal c1File (some (bstr "r0")) = (none, 0)
    ∧ detect_multi_read c1File = true
    ∧ read_single_read_signal c1File (some (bstr "r0")) = (some [1, 2, 3], 3) := by
  refine ⟨by decide, by decide, by decide, by decide⟩

/-- C2 counterexample: after extract_calibration_parameters runs on a
read whose channel_id group has offset = 5 and digitisation = 3 but no
range attribute, the record has calibration_available = false yet keeps
the successfully read offset = 5 and digitisation = 3 — a mixed partial
triple, contradicting "all three coefficient fields are zero". -/
theorem c2_partial_triple_counterexample :
    (extract_calibration_parameters fixtureCalibPartial
        (bstr "/Raw/Reads/Read_0/Signal") Fast5Meta.zero).calibration_available = false
    ∧ (extract_calibration_parameters fixtureCalibPartial
        (bstr "/Raw/Reads/Read_0/Signal") Fast5Meta.zero).offset = 5
    ∧ (extract_calibration_parameters fixtureCalibPartial
        (bstr "/Raw/Reads/Read_0/Signal") Fast5Meta.zero).range = 0
    ∧ (extract_calibration_parameters fixtureCalibPartial
        (bstr "/Raw/Reads/Read_0/Signal") Fast5Meta.zero).digitisation = 3 := by
  refine ⟨by decide, by decide, by decide, by decide⟩

/-- C2 (amended): calibration_available is true exactly when all three
coefficient reads succeed; a missing channel group leaves all three
coefficients zero and available false; with the group present each
coefficient equals its successfully read value, or zero when its own
read failed (so a mixed partial triple can remain with available =
false). -/
theorem c2_calibration_all_or_nothing :
    ∀ (root : H5Obj) (dsPath : Bytes) (m : Fast5Meta),
      (locateChannelGroup root dsPath = none →
        (extract_calibration_parameters root dsPath m).calibration_available = false
        ∧ (extract_calibration_parameters root dsPath m).offset = 0
        ∧ (extract_calibration_parameters root dsPath m).range = 0
        ∧ (extract_calibration_parameters root dsPath m).digitisation = 0)
      ∧ (∀ attrs rest, locateChannelGroup root dsPath = some (attrs, rest) →
        (extract_calibration_parameters root dsPath m).calibration_available =
          ((readDoubleAttr attrs (bstr "offset")).isSome
            && (readDoubleAttr attrs (bstr "range")).isSome
            && (readDoubleAttr attrs (bstr "digitisation")).isSome)
        ∧ (extract_calibration_parameters root dsPath m).offset =
            (readDoubleAttr attrs (bstr "offset")).getD 0
        ∧ (extract_calibration_parameters root dsPath m).range =
            (readDoubleAttr attrs (bstr "range")).getD 0
        ∧ (extract_calibration_parameters root dsPath m).digitisation =
            (readDoubleAttr attrs (bstr "digitisation")).getD 0) := by
  intro root dsPath m
  constructor
  · intro h
    simp [extract_calibration_parameters, h]
  · intro attrs rest h
    simp [extract_calibration_parameters, h]

/-- C2 witness: the amended characterisation applied to the concrete
partial fixture. -/
theorem c2_calibration_all_or_nothing_witness :
    (extract_calibration_parameters fixtureCalibPartial
        (bstr "/Raw/Reads/Read_0/Signal") Fast5Meta.zero).calibration_available =
      ((readDoubleAttr [(bstr "offset", AttrVal.f64A 5), (bstr "digitisation", AttrVal.f64A 3)]
          (bstr "offset")).isSome
        && (readDoubleAttr [(bstr "offset", AttrVal.f64A 5), (bstr "digitisation", AttrVal.f64A 3)]
          (bstr "range")).isSome
        && (readDoubleAttr [(bstr "offset", AttrVal.f64A 5), (bstr "digitisation", AttrVal.f64A 3)]
          (bstr "digitisation")).isSome) :=
  ((c2_calibration_all_or_nothing fixtureCalibPartial
      (bstr "/Raw/Reads/Read_0/Signal") Fast5Meta.zero).2
    [(bstr "offset", AttrVal.f64A 5), (bstr "digitisation", AttrVal.f64A 3)] []
    (by rfl)).1

/-- Metadata record with calibration offset 2, range 4, digitisation 8. -/
def c3meta : Fast5Meta :=
  { Fast5Meta.zero with calibration_available := true,
                        offset := 2, range := 4, digitisation := 8 }

/-- C3: write_summary_row converts the raw median with the offset
subtracted (fast5_stats.c:209), while the conversion contract the codec
itself prints into every signal dump header (fast5_convert.c:179) adds
the offset: at raw median 10, offset 2, range 4, digitisation 8 the
summary row reports 4 pA where the contract gives 6 pA. -/
theorem c3_summary_row_breaks_contract :
    summary_row_median_pa c3meta 10 = 4
    ∧ signal_pA_contract 10 2 4 8 = 6
    ∧ summary_row_median_pa c3meta 10 ≠ signal_pA_contract 10 2 4 8 := by
  have h1 : summary_row_median_pa c3meta 10 = 4 := by
    rw [summary_row_median_pa]
    rw [if_pos (by constructor <;> norm_num [c3meta, Fast5Meta.zero])]
    norm_num [c3meta, Fast5Meta.zero]
  have h2 : signal_pA_contract 10 2 4 8 = 6 := by
    rw [signal_pA_contract]; norm_num
  exact ⟨h1, h2, by rw [h1, h2]; norm_num⟩

/-- C4 counterexample: a file whose file_type discriminator attribute
declares "single-read" is nevertheless classified multi-read, because
detection only tests the attribute's presence (fast5_io.c:636-638) and
never reads its value — the dialect is NOT taken from the attribute. -/
theorem c4_dialect_not_taken_from_attr :
    detect_multi_read fixtureDialectMismatch = true
    ∧ claim_dialect_from_attr fixtureDialectMismatch = some false := by
  refine ⟨by decide, by decide⟩

/-- C4 (amended): three ordered checks with first match winning, where
check (1) classifies the file multi-read whenever the file_type attribute
is PRESENT, regardless of its value; (2) otherwise any of the first 5
root child names with the read_ prefix means multi-read; (3) otherwise
the single-read fixed path is used.  The three fixtures classify
multi-read, multi-read and single-read. -/
theorem c4_detection_order :
    (∀ (attrs : List (Bytes × AttrVal)) (ch : List (Bytes × H5Obj)),
      (lookupAttr attrs (bstr "file_type")).isSome = true →
      detect_multi_read (H5Obj.group attrs ch) = true)
    ∧ (∀ (attrs : List (Bytes × AttrVal)) (ch : List (Bytes × H5Obj)),
      lookupAttr attrs (bstr "file_type") = none →
      detect_multi_read (H5Obj.group attrs ch) =
        ((ch.take 5).map Prod.fst).any (fun nm => (bstr "read_").isPrefixOf nm))
    ∧ (read_fast5_metadata_with_enhancer fixtureMultiAttr (bstr "a.fast5") none).map
        (List.map Fast5Meta.is_multi_read) = some [true]
    ∧ (read_fast5_metadata_with_enhancer fixtureMultiPrefix (bstr "b.fast5") none).map
        (List.map Fast5Meta.is_multi_read) = some [true]
    ∧ (read_fast5_metadata_with_enhancer fixtureSingleRead (bstr "c.fast5") none).map
        (List.map Fast5Meta.is_multi_read) = some [false] := by
  refine ⟨?_, ?_, by decide, by decide, by decide⟩
  · intro attrs ch h
    simp [detect_multi_read, h]
  · intro attrs ch h
    simp [detect_multi_read, h]

/-- C4 witness: the two detection checks applied at concrete inputs. -/
theorem c4_detection_order_witness :
    detect_multi_read (H5Obj.group [(bstr "file_type", AttrVal.strA (bstr "x"))] []) = true
    ∧ detect_multi_read (H5Obj.group [] [(bstr "read_0", H5Obj.group [] [])]) =
        (([(bstr "read_0", H5Obj.group [] [])].take 5).map Prod.fst).any
          (fun nm => (bstr "read_").isPrefixOf nm) :=
  ⟨c4_detection_order.1 [(bstr "file_type", AttrVal.strA (bstr "x"))] [] (by decide),
   c4_detection_order.2.1 [] [(bstr "read_0", H5Obj.group [] [])] (by decide)⟩

/-- C5: the filename fallback is applied only after attribute-based
channel decoding failed.  With a native-integer channel_number attribute
the decoded channel is the attribute's value whatever the filename; with
no attribute-decoded channel and the filename reads_ch999.fast5 the
decoded channel is 999. -/
theorem c5_channel_precedence :
    ∀ (root : H5Obj) (dsPath filename : Bytes) (m : Fast5Meta),
      (∀ attrs rest v, locateChannelGroup root dsPath = some (attrs, rest) →
        lookupAttr attrs (bstr "channel_number") = some (AttrVal.i32A v) →
        (channel_with_fallback root dsPath filename m).channel_number =
          some (intDecBytes v))
      ∧ ((extract_channel_number root dsPath m).channel_number = none →
        (channel_with_fallback root dsPath (bstr "reads_ch999.fast5") m).channel_number =
          some (bstr "999")) := by
  intro root dsPath filename m
  constructor
  · intro attrs rest v h1 h2
    simp [channel_with_fallback, extract_channel_number, h1, h2]
  · intro h
    have h999 : channelFromFilename (bstr "reads_ch999.fast5") = some (bstr "999") := by
      decide
    simp [channel_with_fallback, h, try_filename_channel_extraction, h999]

/-- A file whose channel_id group has a native-integer channel_number 7. -/
def fixtureChannelInt : H5Obj :=
  H5Obj.group []
    [(bstr "UniqueGlobalKey", H5Obj.group []
       [(bstr "channel_id", H5Obj.group
          [(bstr "channel_number", AttrVal.i32A 7)] [])])]

/-- C5 witness: attribute value 7 wins over filename ch999; with no
channel attribute at all, the filename fallback yields 999. -/
theorem c5_channel_precedence_witness :
    (channel_with_fallback fixtureChannelInt (bstr "/Raw/Reads/Read_0/Signal")
        (bstr "reads_ch999.fast5") Fast5Meta.zero).channel_number =
      some (intDecBytes 7)
    ∧ (channel_with_fallback fixtureCalibPartial (bstr "/Raw/Reads/Read_0/Signal")
        (bstr "reads_ch999.fast5") Fast5Meta.zero).channel_number =
      some (bstr "999") :=
  ⟨(c5_channel_precedence fixtureChannelInt (bstr "/Raw/Reads/Read_0/Signal")
      (bstr "reads_ch999.fast5") Fast5Meta.zero).1
    [(bstr "channel_number", AttrVal.i32A 7)] [] 7 (by rfl) (by decide),
   (c5_channel_precedence fixtureCalibPartial (bstr "/Raw/Reads/Read_0/Signal")
      (bstr "reads_ch999.fast5") Fast5Meta.zero).2 (by decide)⟩

/-- The packed chain equals: first of the four interpretations, in the
fixed order 16LE, 16BE, 32LE, 32BE, whose value lies in [1, 1000). -/
theorem packedChannelDecode_eq_find (bs : Bytes) :
    packedChannelDecode bs =
      ([u16le bs, u16be bs, u32le bs, u32be bs].find?
        (fun v => decide (0 < v) && decide (v < 1000))) := by
  have aux : ∀ x : Nat, ¬(0 < x ∧ x < 1000) →
      (decide (0 < x) && decide (x < 1000)) = false := by
    intro x h
    by_cases hx : 0 < x
    · by_cases hy : x < 1000
      · exact absurd ⟨hx, hy⟩ h
      · simp [hy]
    · simp [hx]
  have auxT : ∀ x : Nat, (0 < x ∧ x < 1000) →
      (decide (0 < x) && decide (x < 1000)) = true := by
    intro x h
    simp [h.1, h.2]
  by_cases h1 : 0 < u16le bs ∧ u16le bs < 1000
  · simp only [packedChannelDecode, List.find?, auxT _ h1, if_pos h1, if_pos h1.1]
  · by_cases h2 : 0 < u16be bs ∧ u16be bs < 1000
    · simp only [packedChannelDecode, List.find?, aux _ h1, auxT _ h2,
        if_neg h1, if_pos h2, if_pos h2.1]
    · by_cases h3 : 0 < u32le bs ∧ u32le bs < 1000
      · simp only [packedChannelDecode, List.find?, aux _ h1, aux _ h2, auxT _ h3,
          if_neg h1, if_neg h2, if_pos h3, if_pos h3.1]
      · by_cases h4 : 0 < u32be bs ∧ u32be bs < 1000
        · simp only [packedChannelDecode, List.find?, aux _ h1, aux _ h2, aux _ h3,
            auxT _ h4, if_neg h1, if_neg h2, if_neg h3, if_pos h4, if_pos h4.1]
        · simp only [packedChannelDecode, List.find?, aux _ h1, aux _ h2, aux _ h3,
            aux _ h4, if_neg h1, if_neg h2, if_neg h3, if_neg h4,
            if_neg (Nat.lt_irrefl 0)]

/-- C6: for an 8-byte string-typed channel_number attribute the decoded
channel is the first of the 16-bit LE, 16-bit BE, 32-bit LE, 32-bit BE
byte interpretations, in exactly that order, whose value lies in
[1, 1000), printed in decimal; when none is in range no channel number is
produced from the attribute. -/
theorem c6_packed_binary_channel :
    ∀ (root : H5Obj) (dsPath : Bytes) (m : Fast5Meta)
      (attrs : List (Bytes × AttrVal)) (rest : List (Bytes × H5Obj)) (bs : Bytes),
      locateChannelGroup root dsPath = some (attrs, rest) →
      lookupAttr attrs (bstr "channel_number") = some (AttrVal.strA bs) →
      bs.length = 8 →
      (extract_channel_number root dsPath m).channel_number =
        ([u16le bs, u16be bs, u32le bs, u32be bs].find?
          (fun v => decide (0 < v) && decide (v < 1000))).map natDecBytes := by
  intro root dsPath m attrs rest bs h1 h2 h3
  rw [← packedChannelDecode_eq_find]
  cases hp : packedChannelDecode bs with
  | none => simp [extract_channel_number, h1, h2, h3, hp]
  | some n => simp [extract_channel_number, h1, h2, h3, hp]

/-- A file whose channel_id group has an 8-byte packed channel_number
attribute whose 16-bit little-endian reading is 256. -/
def fixtureChannelPacked : H5Obj :=
  H5Obj.group []
    [(bstr "UniqueGlobalKey", H5Obj.group []
       [(bstr "channel_id", H5Obj.group
          [(bstr "channel_number", AttrVal.strA [0, 1, 0, 0, 0, 0, 0, 0])] [])])]

/-- C6 witness: the packed decoding applied to the concrete fixture. -/
theorem c6_packed_binary_channel_witness :
    (extract_channel_number fixtureChannelPacked (bstr "/Raw/Reads/Read_0/Signal")
        Fast5Meta.zero).channel_number =
      ([u16le [0, 1, 0, 0, 0, 0, 0, 0], u16be [0, 1, 0, 0, 0, 0, 0, 0],
        u32le [0, 1, 0, 0, 0, 0, 0, 0], u32be [0, 1, 0, 0, 0, 0, 0, 0]].find?
          (fun v => decide (0 < v) && decide (v < 1000))).map natDecBytes :=
  c6_packed_binary_channel fixtureChannelPacked (bstr "/Raw/Reads/Read_0/Signal")
    Fast5Meta.zero [(bstr "channel_number", AttrVal.strA [0, 1, 0, 0, 0, 0, 0, 0])]
    [] [0, 1, 0, 0, 0, 0, 0, 0] (by rfl) (by decide) (by decide)

/-!
Aggregator lemmas for C7 and C8.
-/

theorem foldReadStats_successful_files (s : SignalStats) (m : Fast5Meta) :
    (foldReadStats s m).successful_files = s.successful_files := rfl

theorem foldReadStats_total_reads (s : SignalStats) (m : Fast5Meta) :
    (foldReadStats s m).total_reads = s.total_reads := rfl

theorem foldlRead_successful_files (ms : List Fast5Meta) (s : SignalStats) :
    (ms.foldl foldReadStats s).successful_files = s.successful_files := by
  induction ms generalizing s with
  | nil => rfl
  | cons m t ih => rw [List.foldl_cons, ih, foldReadStats_successful_files]

theorem foldlRead_total_reads (ms : List Fast5Meta) (s : SignalStats) :
    (ms.foldl foldReadStats s).total_reads = s.total_reads := by
  induction ms generalizing s with
  | nil => rfl
  | cons m t ih => rw [List.foldl_cons, ih, foldReadStats_total_reads]

theorem foldFileStats_of_bad (s : SignalStats) (e : FileEntry)
    (h : goodEntry e = false) : foldFileStats s e = s := by
  obtain ⟨meta, size⟩ := e
  cases meta with
  | none => rfl
  | some ms =>
    simp only [goodEntry, decide_eq_false_iff_not] at h
    simp [foldFileStats, h]

theorem foldFileStats_successful_files (s : SignalStats) (e : FileEntry) :
    (foldFileStats s e).successful_files =
      s.successful_files + (if goodEntry e then 1 else 0) := by
  obtain ⟨meta, size⟩ := e
  cases meta with
  | none => rfl
  | some ms =>
    by_cases h : 0 < ms.length
    · simp [foldFileStats, goodEntry, h, foldlRead_successful_files]
    · simp [foldFileStats, goodEntry, h]

theorem foldFileStats_total_reads (s : SignalStats) (e : FileEntry) :
    (foldFileStats s e).total_reads =
      s.total_reads + (if goodEntry e then (e.meta.getD []).length else 0) := by
  obtain ⟨meta, size⟩ := e
  cases meta with
  | none => rfl
  | some ms =>
    by_cases h : 0 < ms.length
    · simp [foldFileStats, goodEntry, h, foldlRead_total_reads]
    · simp [foldFileStats, goodEntry, h]

theorem foldl_file_filter_good (l : List FileEntry) (s : SignalStats) :
    l.foldl foldFileStats s = (l.filter goodEntry).foldl foldFileStats s := by
  induction l generalizing s with
  | nil => rfl
  | cons e t ih =>
    by_cases hg : goodEntry e = true
    · rw [List.foldl_cons, List.filter_cons, if_pos hg, List.foldl_cons, ih]
    · have hb : goodEntry e = false := by
        cases hgb : goodEntry e
        · rfl
        · exact absurd hgb hg
      rw [List.foldl_cons, List.filter_cons, if_neg (by simp [hb]),
        foldFileStats_of_bad s e hb, ih]

theorem foldl_file_successful_count (l : List FileEntry) (s : SignalStats) :
    (l.foldl foldFileStats s).successful_files =
      s.successful_files + (l.filter goodEntry).length := by
  induction l generalizing s with
  | nil => simp
  | cons e t ih =>
    rw [List.foldl_cons, ih, foldFileStats_successful_files, List.filter_cons]
    by_cases hg : goodEntry e = true
    · rw [if_pos hg, if_pos (by simp [hg])]
      simp only [List.length_cons]
      omega
    · have hb : goodEntry e = false := by
        cases hgb : goodEntry e
        · rfl
        · exact absurd hgb hg
      rw [if_neg (by simp [hb]), if_neg (by simp [hb])]
      omega

theorem foldl_file_total_reads (l : List FileEntry) (s : SignalStats) :
    (l.foldl foldFileStats s).total_reads =
      s.total_reads + ((l.filter goodEntry).map
        (fun e => (e.meta.getD []).length)).sum := by
  induction l generalizing s with
  | nil => simp
  | cons e t ih =>
    rw [List.foldl_cons, ih, foldFileStats_total_reads, List.filter_cons]
    by_cases hg : goodEntry e = true
    · rw [if_pos hg, if_pos (by simp [hg])]
      simp only [List.map_cons, List.sum_cons]
      omega
    · have hb : goodEntry e = false := by
        cases hgb : goodEntry e
        · rfl
        · exact absurd hgb hg
      rw [if_neg (by simp [hb]), if_neg (by simp [hb])]
      omega

/-!
Concrete five-file batch for C7: two unreadable entries (a null metadata
array and a zero-count array) among three good files.
-/

/-- A read of 10 samples at 4 Hz lasting 40 samples. -/
def mRead10 : Fast5Meta :=
  { Fast5Meta.zero with signal_length := 10, duration := 40, sample_rate := 4 }

/-- A read of 20 samples at 4 Hz lasting 80 samples. -/
def mRead20 : Fast5Meta :=
  { Fast5Meta.zero with signal_length := 20, duration := 80, sample_rate := 4 }

/-- A read of 30 samples at 4 Hz lasting 120 samples. -/
def mRead30 : Fast5Meta :=
  { Fast5Meta.zero with signal_length := 30, duration := 120, sample_rate := 4 }

/-- A read of 15 samples at 4 Hz lasting 60 samples. -/
def mRead15 : Fast5Meta :=
  { Fast5Meta.zero with signal_length := 15, duration := 60, sample_rate := 4 }

/-- Five files: 1 read, null array, 2 reads, empty array, 1 read. -/
def batch5 : List FileEntry :=
  [⟨some [mRead10], 1⟩, ⟨none, 2⟩, ⟨some [mRead20, mRead30], 3⟩,
   ⟨some [], 4⟩, ⟨some [mRead15], 5⟩]

/-- C7: a file with a null or empty metadata array is failed and
contributes nothing to any total (folding the batch equals folding only
its good entries), every other file increments successful_files and has
its reads folded in, failed_files is the batch size minus
successful_files, and the concrete 5-file batch with 2 unreadable files
reports successful_files = 3, failed_files = 2 and totals from the 3
good files only (4 reads, 75 samples, min 10, max 30, 9 MB, 75 s). -/
theorem c7_aggregation_partial_failure :
    (∀ batch : List FileEntry,
      (calc_signal_stats batch).successful_files = (batch.filter goodEntry).length
      ∧ calc_signal_stats batch = calc_signal_stats (batch.filter goodEntry)
      ∧ (calc_signal_stats batch).total_reads =
          ((batch.filter goodEntry).map (fun e => (e.meta.getD []).length)).sum)
    ∧ (∀ (s : SignalStats) (fc : Nat) (pt : ℚ),
        (calc_analysis_summary_with_enhancer s fc pt).failed_files =
          (fc : Int) - (s.successful_files : Int))
    ∧ (calc_signal_stats batch5).successful_files = 3
    ∧ (calc_analysis_summary_with_enhancer (calc_signal_stats batch5) 5 0).failed_files = 2
    ∧ (calc_signal_stats batch5).total_reads = 4
    ∧ (calc_signal_stats batch5).total_samples = 75
    ∧ (calc_signal_stats batch5).min_signal_length = 10
    ∧ (calc_signal_stats batch5).max_signal_length = 30
    ∧ (calc_signal_stats batch5).total_file_size_mb = 9
    ∧ (calc_signal_stats batch5).total_duration_seconds = 75 := by
  have hsum : ∀ batch : List FileEntry,
      (calc_signal_stats batch).successful_files = (batch.filter goodEntry).length := by
    intro batch
    rw [calc_signal_stats, foldl_file_successful_count]
    simp [statsInit]
  have hsucc5 : (calc_signal_stats batch5).successful_files = 3 := by
    rw [hsum]; decide
  refine ⟨?_, ?_, hsucc5, ?_, ?_, ?_, ?_, ?_, ?_, ?_⟩
  · intro batch
    refine ⟨hsum batch, ?_, ?_⟩
    · rw [calc_signal_stats, calc_signal_stats, foldl_file_filter_good]
    · rw [calc_signal_stats, foldl_file_total_reads]
      simp [statsInit]
  · intro s fc pt
    rfl
  · show (5 : Int) - ((calc_signal_stats batch5).successful_files : Int) = 2
    rw [hsucc5]; norm_num
  · rw [calc_signal_stats, foldl_file_total_reads]; decide
  · norm_num [calc_signal_stats, List.foldl, foldFileStats, foldReadStats,
      statsInit, batch5, mRead10, mRead20, mRead30, mRead15, Fast5Meta.zero]
  · norm_num [calc_signal_stats, List.foldl, foldFileStats, foldReadStats,
      statsInit, batch5, mRead10, mRead20, mRead30, mRead15, Fast5Meta.zero,
      UINT32_MAX]
  · norm_num [calc_signal_stats, List.foldl, foldFileStats, foldReadStats,
      statsInit, batch5, mRead10, mRead20, mRead30, mRead15, Fast5Meta.zero]
  · norm_num [calc_signal_stats, List.foldl, foldFileStats, foldReadStats,
      statsInit, batch5, mRead10, mRead20, mRead30, mRead15, Fast5Meta.zero]
  · norm_num [calc_signal_stats, List.foldl, foldFileStats, foldReadStats,
      statsInit, batch5, mRead10, mRead20, mRead30, mRead15, Fast5Meta.zero]

/-- C8: the aggregator initialises min_signal_length to the UINT32_MAX
sentinel; for any batch and any enhancer a zero-read result reports
min_signal_length 0, and a zero-read (resp. zero-sample) statistics
record reports avg_signal_length, avg_duration_seconds (resp.
avg_bits_per_sample) as 0 instead of dividing by zero. -/
theorem c8_zero_read_dataset :
    (∀ (batch : List FileEntry) (enh : Option (SignalStats → SignalStats)),
      (calc_fast5_dataset_stats_with_enhancer batch enh).total_reads = 0 →
      (calc_fast5_dataset_stats_with_enhancer batch enh).min_signal_length = 0)
    ∧ statsInit.min_signal_length = UINT32_MAX
    ∧ (∀ (s : SignalStats) (fc : Nat) (pt : ℚ), s.total_reads = 0 →
        (calc_analysis_summary_with_enhancer s fc pt).avg_signal_length = 0
        ∧ (calc_analysis_summary_with_enhancer s fc pt).avg_duration_seconds = 0)
    ∧ (∀ (s : SignalStats) (fc : Nat) (pt : ℚ), s.total_samples = 0 →
        (calc_analysis_summary_with_enhancer s fc pt).avg_bits_per_sample = 0) := by
  refine ⟨?_, rfl, ?_, ?_⟩
  · intro batch enh h
    by_cases h0 : (match enh with
        | some e => e (calc_signal_stats batch)
        | none => calc_signal_stats batch).total_reads = 0
    · simp [calc_fast5_dataset_stats_with_enhancer, h0]
    · exfalso
      apply h0
      rw [calc_fast5_dataset_stats_with_enhancer.eq_def] at h
      simp only [if_neg h0] at h
      exact h
  · intro s fc pt h
    constructor <;> simp [calc_analysis_summary_with_enhancer, h]
  · intro s fc pt h
    simp [calc_analysis_summary_with_enhancer, h]

/-- C8 witness: the guards applied to the empty batch and the initial
statistics record. -/
theorem c8_zero_read_dataset_witness :
    (calc_fast5_dataset_stats_with_enhancer [] none).min_signal_length = 0
    ∧ (calc_analysis_summary_with_enhancer statsInit 0 0).avg_signal_length = 0
    ∧ (calc_analysis_summary_with_enhancer statsInit 0 0).avg_bits_per_sample = 0 :=
  ⟨c8_zero_read_dataset.1 [] none (by rfl),
   (c8_zero_read_dataset.2.2.1 statsInit 0 0 (by rfl)).1,
   c8_zero_read_dataset.2.2.2 statsInit 0 0 (by rfl)⟩

/-- C10: with the all-reads flag unset, a multi-read file with more than
3 reads has exactly its first 3 reads (in metadata order) extracted and
written; with the flag set, or for a single-read file, every read is
processed. -/
theorem c10_multi_read_cap :
    ∀ (root : H5Obj) (mds : List Fast5Meta) (all_reads : Bool),
      (headIsMulti mds = true → all_reads = false → 3 < mds.length →
        extract_raw_outputs root mds all_reads =
          (mds.take 3).filterMap (writeOneRead root))
      ∧ (all_reads = true →
        extract_raw_outputs root mds all_reads = mds.filterMap (writeOneRead root))
      ∧ (headIsMulti mds = false →
        extract_raw_outputs root mds all_reads = mds.filterMap (writeOneRead root)) := by
  intro root mds all_reads
  refine ⟨?_, ?_, ?_⟩
  · intro hm ha hl
    simp [extract_raw_outputs, reads_to_process, hm, ha, hl]
  · intro ha
    simp [extract_raw_outputs, reads_to_process, ha, List.take_length]
  · intro hm
    simp [extract_raw_outputs, reads_to_process, hm, List.take_length]

/-- Four multi-read metadata records. -/
def mds4 : List Fast5Meta :=
  List.replicate 4 { Fast5Meta.zero with is_multi_read := true }

/-- C10 witness: the cap applied to a concrete 4-read multi-read file. -/
theorem c10_multi_read_cap_witness :
    extract_raw_outputs (H5Obj.group [] []) mds4 false =
      (mds4.take 3).filterMap (writeOneRead (H5Obj.group [] []))
    ∧ extract_raw_outputs (H5Obj.group [] []) mds4 true =
      mds4.filterMap (writeOneRead (H5Obj.group [] [])) :=
  ⟨(c10_multi_read_cap (H5Obj.group [] []) mds4 false).1 (by rfl) rfl (by decide),
   (c10_multi_read_cap (H5Obj.group [] []) mds4 true).2.1 rfl⟩

/-!
C9: characterisation of the Signal Reader.  The specification-side
search is written from the claim's words: walk the dialect-native read
population in enumeration order and return the first read that matches
the requested identifier and whose signal can be copied.
-/

/-- Length reported alongside an optional signal buffer. -/
def optLen (o : Option (List ℚ)) : Nat :=
  match o with
  | some l => l.length
  | none => 0

/-- First hit of `f` over a list, in order. -/
def firstHit (f : α → Option β) : List α → Option β
  | [] => none
  | a :: t =>
    match f a with
    | some b => some b
    | none => firstHit f t

/-- One single-dialect read candidate: does it match the requested id,
and can its signal be copied (non-empty extent, H5Dread succeeds)? -/
def extractSingleOne (rid : Option Bytes) : H5Obj → Option (List ℚ)
  | H5Obj.dset _ _ => none
  | H5Obj.group gattrs gch =>
    if matchRead rid gattrs then
      match findChild gch (bstr "Signal") with
      | some (H5Obj.dset d c) => if 0 < d.length ∧ c = false then some d else none
      | _ => none
    else none

/-- One multi-dialect read candidate (root child named read_* with a Raw
subgroup). -/
def extractMultiOne (rid : Option Bytes) (nm : Bytes) : H5Obj → Option (List ℚ)
  | H5Obj.dset _ _ => none
  | H5Obj.group _ gch =>
    if (bstr "read_").isPrefixOf nm then
      match findChild gch (bstr "Raw") with
      | some (H5Obj.group rattrs rch) =>
        if matchRead rid rattrs then
          match findChild rch (bstr "Signal") with
          | some (H5Obj.dset d c) => if 0 < d.length ∧ c = false then some d else none
          | _ => none
        else none
      | _ => none
    else none

/-- Children of /Raw/Reads, the single-dialect read population. -/
def signalCandidatesSingle (root : H5Obj) : List (Bytes × H5Obj) :=
  match openGroupAbs root (bstr "/Raw/Reads") with
  | some (_, ch) => ch
  | none => []

/-- Root children, the multi-dialect candidate population. -/
def rootChildren (root : H5Obj) : List (Bytes × H5Obj) :=
  match root with
  | H5Obj.group _ ch => ch
  | H5Obj.dset _ _ => []

/-- The claim's reading of the Signal Reader: first matching copyable
read in dialect-native enumeration order. -/
def signalSearchSpec (root : H5Obj) (rid : Option Bytes) : Option (List ℚ) :=
  if detect_multi_read root then
    firstHit (fun c => extractMultiOne rid c.1 c.2) (rootChildren root)
  else
    firstHit (fun c => extractSingleOne rid c.2) (signalCandidatesSingle root)

/-- read_ids present in the dialect-native read population. -/
def signalReadIds (root : H5Obj) : List Bytes :=
  if detect_multi_read root then
    (rootChildren root).filterMap (fun c =>
      if (bstr "read_").isPrefixOf c.1 then
        match c.2 with
        | H5Obj.group _ gch =>
          match findChild gch (bstr "Raw") with
          | some (H5Obj.group rattrs _) => readStringAttr rattrs (bstr "read_id")
          | _ => none
        | H5Obj.dset _ _ => none
      else none)
  else
    (signalCandidatesSingle root).filterMap (fun c =>
      match c.2 with
      | H5Obj.group gattrs _ => readStringAttr gattrs (bstr "read_id")
      | H5Obj.dset _ _ => none)

theorem srsLoop_characterisation (rid : Option Bytes) (cs : List (Bytes × H5Obj)) :
    srsLoop rid cs 0 =
      (firstHit (fun c => extractSingleOne rid c.2) cs,
       optLen (firstHit (fun c => extractSingleOne rid c.2) cs)) := by
  induction cs with
  | nil => rfl
  | cons c rest ih =>
    obtain ⟨nm, o⟩ := c
    cases o with
    | dset d cr => simpa [srsLoop, firstHit, extractSingleOne] using ih
    | group gattrs gch =>
      by_cases hm : matchRead rid gattrs = true
      · cases hf : findChild gch (bstr "Signal") with
        | none => simpa [srsLoop, firstHit, extractSingleOne, hm, hf] using ih
        | some so =>
          cases so with
          | group a2 c2 => simpa [srsLoop, firstHit, extractSingleOne, hm, hf] using ih
          | dset d cr =>
            by_cases hl : 0 < d.length
            · cases cr with
              | true => simpa [srsLoop, firstHit, extractSingleOne, hm, hf, hl] using ih
              | false => simp [srsLoop, firstHit, extractSingleOne, hm, hf, hl, optLen]
            · simpa [srsLoop, firstHit, extractSingleOne, hm, hf, hl] using ih
      · simpa [srsLoop, firstHit, extractSingleOne, hm] using ih

theorem mrsLoop_characterisation (rid : Option Bytes) (cs : List (Bytes × H5Obj)) :
    mrsLoop rid cs 0 =
      (firstHit (fun c => extractMultiOne rid c.1 c.2) cs,
       optLen (firstHit (fun c => extractMultiOne rid c.1 c.2) cs)) := by
  induction cs with
  | nil => rfl
  | cons c rest ih =>
    obtain ⟨nm, o⟩ := c
    by_cases hp : (bstr "read_").isPrefixOf nm = true
    · cases o with
      | dset d cr => simpa [mrsLoop, firstHit, extractMultiOne, hp] using ih
      | group gattrs gch =>
        cases hr : findChild gch (bstr "Raw") with
        | none => simpa [mrsLoop, firstHit, extractMultiOne, hp, hr] using ih
        | some ro =>
          cases ro with
          | dset d2 c2 => simpa [mrsLoop, firstHit, extractMultiOne, hp, hr] using ih
          | group rattrs rch =>
            by_cases hm : matchRead rid rattrs = true
            · cases hf : findChild rch (bstr "Signal") with
              | none =>
                simpa [mrsLoop, firstHit, extractMultiOne, hp, hr, hm, hf] using ih
              | some so =>
                cases so with
                | group a3 c3 =>
                  simpa [mrsLoop, firstHit, extractMultiOne, hp, hr, hm, hf] using ih
                | dset d cr =>
                  by_cases hl : 0 < d.length
                  · cases cr with
                    | true =>
                      simpa [mrsLoop, firstHit, extractMultiOne, hp, hr, hm, hf, hl]
                        using ih
                    | false =>
                      simp [mrsLoop, firstHit, extractMultiOne, hp, hr, hm, hf, hl,
                        optLen]
                  · simpa [mrsLoop, firstHit, extractMultiOne, hp, hr, hm, hf, hl]
                      using ih
            · simpa [mrsLoop, firstHit, extractMultiOne, hp, hr, hm] using ih
    · cases o with
      | dset d cr => simpa [mrsLoop, firstHit, extractMultiOne, hp] using ih
      | group gattrs gch => simpa [mrsLoop, firstHit, extractMultiOne, hp] using ih

theorem read_fast5_signal_characterisation :
    ∀ (root : H5Obj) (rid : Option Bytes),
      read_fast5_signal root rid =
        (signalSearchSpec root rid, optLen (signalSearchSpec root rid)) := by
  intro root rid
  rw [read_fast5_signal, signalSearchSpec]
  by_cases hd : detect_multi_read root = true
  · rw [if_pos hd, if_pos hd]
    cases root with
    | dset d c => rfl
    | group attrs ch =>
      rw [read_multi_read_signal]
      exact mrsLoop_characterisation rid ch
  · rw [if_neg hd, if_neg hd]
    rw [read_single_read_signal, signalCandidatesSingle]
    cases ho : openGroupAbs root (bstr "/Raw/Reads") with
    | none => rfl
    | some p => exact srsLoop_characterisation rid p.2

theorem firstHit_eq_none {α β : Type _} {f : α → Option β} {l : List α}
    (h : ∀ a ∈ l, f a = none) : firstHit f l = none := by
  induction l with
  | nil => rfl
  | cons a t ih =>
    rw [firstHit, h a (by simp)]
    exact ih (fun x hx => h x (by simp [hx]))

theorem firstHit_prop {α β : Type _} {f : α → Option β} {P : β → Prop}
    (hf : ∀ a b, f a = some b → P b) :
    ∀ {l : List α} {b : β}, firstHit f l = some b → P b := by
  intro l
  induction l with
  | nil => intro b h; exact absurd h (by simp [firstHit])
  | cons a t ih =>
    intro b h
    rw [firstHit] at h
    cases hfa : f a with
    | some c =>
      rw [hfa] at h
      exact hf a b (hfa.trans h)
    | none =>
      rw [hfa] at h
      exact ih h

theorem extractSingleOne_pos {rid : Option Bytes} {o : H5Obj} {l : List ℚ}
    (h : extractSingleOne rid o = some l) : 0 < l.length := by
  unfold extractSingleOne at h
  repeat' split at h
  all_goals simp_all

theorem extractMultiOne_pos {rid : Option Bytes} {nm : Bytes} {o : H5Obj}
    {l : List ℚ} (h : extractMultiOne rid nm o = some l) : 0 < l.length := by
  unfold extractMultiOne at h
  repeat' split at h
  all_goals simp_all

theorem signalSearchSpec_pos {root : H5Obj} {rid : Option Bytes} {l : List ℚ}
    (h : signalSearchSpec root rid = some l) : 0 < l.length := by
  rw [signalSearchSpec] at h
  by_cases hd : detect_multi_read root = true
  · rw [if_pos hd] at h
    exact firstHit_prop (fun c b hb => extractMultiOne_pos hb) h
  · rw [if_neg hd] at h
    exact firstHit_prop (fun c b hb => extractSingleOne_pos hb) h

theorem matchRead_some_iff (r : Bytes) (attrs : List (Bytes × AttrVal)) :
    matchRead (some r) attrs = true ↔
      readStringAttr attrs (bstr "read_id") = some r := by
  unfold matchRead
  cases hs : readStringAttr attrs (bstr "read_id") with
  | none => simp
  | some s => simp [hs]

theorem signalSearchSpec_not_found (root : H5Obj) (r : Bytes)
    (h : r ∉ signalReadIds root) : signalSearchSpec root (some r) = none := by
  rw [signalSearchSpec]
  by_cases hd : detect_multi_read root = true
  · rw [if_pos hd]
    apply firstHit_eq_none
    intro c hc
    obtain ⟨nm, o⟩ := c
    show extractMultiOne (some r) nm o = none
    cases o with
    | dset d cr => rfl
    | group gattrs gch =>
      simp only [extractMultiOne]
      by_cases hp : (bstr "read_").isPrefixOf nm = true
      · rw [if_pos hp]
        cases hr : findChild gch (bstr "Raw") with
        | none => simp [hr]
        | some ro =>
          cases ro with
          | dset d2 c2 => simp [hr]
          | group rattrs rch =>
            by_cases hm : matchRead (some r) rattrs = true
            · exfalso
              apply h
              rw [signalReadIds, if_pos hd]
              refine List.mem_filterMap.mpr ⟨(nm, H5Obj.group gattrs gch), hc, ?_⟩
              simp only [hp, if_true, hr]
              exact (matchRead_some_iff r rattrs).mp hm
            · simp [hr, hm]
      · rw [if_neg hp]
  · rw [if_neg hd]
    apply firstHit_eq_none
    intro c hc
    obtain ⟨nm, o⟩ := c
    show extractSingleOne (some r) o = none
    cases o with
    | dset d cr => rfl
    | group gattrs gch =>
      simp only [extractSingleOne]
      by_cases hm : matchRead (some r) gattrs = true
      · exfalso
        apply h
        rw [signalReadIds, if_neg hd]
        refine List.mem_filterMap.mpr ⟨(nm, H5Obj.group gattrs gch), hc, ?_⟩
        exact (matchRead_some_iff r gattrs).mp hm
      · rw [if_neg hm]

/-- C9: read_fast5_signal never pairs a null buffer with a non-zero
reported length or a non-null buffer with length 0; a requested read id
absent from the file's dialect-native read population yields (null, 0);
and with no read id requested the result is the first read, in
dialect-native enumeration order, whose signal can be copied. -/
theorem c9_signal_reader_contract :
    ∀ (root : H5Obj) (rid : Option Bytes),
      ((read_fast5_signal root rid).1 = none → (read_fast5_signal root rid).2 = 0)
      ∧ (∀ l, (read_fast5_signal root rid).1 = some l →
          (read_fast5_signal root rid).2 = l.length ∧ 0 < l.length)
      ∧ (∀ r, rid = some r → r ∉ signalReadIds root →
          read_fast5_signal root rid = (none, 0))
      ∧ (rid = none →
          (read_fast5_signal root rid).1 = signalSearchSpec root none)
      ∧ read_fast5_signal root rid =
          (signalSearchSpec root rid, optLen (signalSearchSpec root rid)) := by
  intro root rid
  have hch := read_fast5_signal_characterisation root rid
  refine ⟨?_, ?_, ?_, ?_, hch⟩
  · intro h
    rw [hch] at h ⊢
    simp only at h
    simp [h, optLen]
  · intro l h
    rw [hch] at h ⊢
    simp only at h
    exact ⟨by simp [h, optLen], signalSearchSpec_pos h⟩
  · intro r hr hmem
    subst hr
    rw [hch, signalSearchSpec_not_found root r hmem]
    rfl
  · intro h
    subst h
    rw [hch]

/-- C9 witness: the contract applied to the single-read fixture, for a
read id absent from the file, a present read id, and no read id. -/
theorem c9_signal_reader_contract_witness :
    read_fast5_signal fixtureSingleRead (some (bstr "zz")) = (none, 0)
    ∧ (read_fast5_signal fixtureSingleRead (some (bstr "r0"))).2 = 2
    ∧ (read_fast5_signal fixtureSingleRead none).1 =
        signalSearchSpec fixtureSingleRead none :=
  ⟨(c9_signal_reader_contract fixtureSingleRead (some (bstr "zz"))).2.2.1
      (bstr "zz") rfl (by decide),
   ((c9_signal_reader_contract fixtureSingleRead (some (bstr "r0"))).2.1
      [1, 2] (by decide)).1,
   (c9_signal_reader_contract fixtureSingleRead none).2.2.2.1 rfl⟩

/-!
Sanity checks: the multi-read writer round-trips through the readers in
the model (contrast with c1_single_write_roundtrip_fails), and the
single-read container written by the single writer is structurally
intact.
-/

example :
    (read_fast5_metadata_with_enhancer
        (seq_write_fast5_multi (bstr "m.fast5") [(some [1, 2], bstr "r0")] 4)
        (bstr "m.fast5") none).map
      (List.map (fun m => (m.read_id, m.duration, m.signal_length, m.is_multi_read))) =
    some [(some (bstr "r0"), 2, 2, true)] := by decide

example :
    read_fast5_signal
      (seq_write_fast5_multi (bstr "m.fast5") [(some [1, 2], bstr "r0")] 4)
      (some (bstr "r0")) = (some [1, 2], 2) := by decide

example :
    (read_fast5_metadata_with_enhancer
        (seq_write_fast5_multi (bstr "m.fast5")
          [(some [1, 2], bstr "r0"), (some [3, 4, 5], bstr "r1")] 4)
        (bstr "m.fast5") none).map
      (List.map (fun m => (m.read_id, m.duration))) =
    some [(some (bstr "r0"), 2), (some (bstr "r1"), 3)] := by decide

example :
    read_fast5_signal
      (seq_write_fast5_multi (bstr "m.fast5")
        [(some [1, 2], bstr "r0"), (some [3, 4, 5], bstr "r1")] 4)
      (some (bstr "r1")) = (some [3, 4, 5], 3) := by decide
